import Mathlib

/-
Verification of the source-provisioning pipeline of conda-build
(conda_build/source.py) against its specification.

The Python module is shallowly embedded below: every definition mirrors a
function of source.py (or one specific piece of it, named in its doc
comment).  External collaborators (the conda download/hash helpers, the
filesystem, the subprocesses for git/hg/svn/patch) are modelled as explicit
inputs: a record of the digests of the cached file, a predicate telling
which paths are existing files, the entry list a given acquisition step
deposits in the working directory, and so on.  Subprocess invocations are
modelled as the command lines the code issues (argv plus working
directory), so that theorems can speak about which external commands run,
in which order, and from which directory.
-/

set_option autoImplicit false

deriving instance DecidableEq for Except

namespace CondaBuild

/-- Python os.path.join for an absolute first component and a relative
second component, as source.py always uses it. -/
def pyJoin (a b : String) : String := a ++ "/" ++ b

/-- Python str.lower(), on the character list of the string (ASCII case
mapping, which covers every suffix and keyword source.py compares
against). -/
def pyLower (s : String) : String := String.mk (s.data.map Char.toLower)

/-- Python str.endswith(suffix). -/
def pyEndsWith (s suf : String) : Bool := suf.data.isSuffixOf s.data

/-- Python str.startswith(pre). -/
def pyStartsWith (s pre : String) : Bool := pre.data.isPrefixOf s.data

/-- Python str.strip(): whitespace removed from both ends. -/
def pyStrip (s : String) : String :=
  String.mk (((s.data.dropWhile Char.isWhitespace).reverse.dropWhile
    Char.isWhitespace).reverse)

/-- Python truthiness of an optional string value, as tested by
`if meta.get(key)`: a missing key and the empty string are falsy. -/
def pyTruthy : Option String → Bool
  | none => false
  | some s => s != ""

/-- Python `a or b` where `a` is an optional string from `meta.get` and
`b` a fallback: returns `a`'s value when it is truthy, else `b`. -/
def pyOrStr (a : Option String) (b : String) : String :=
  match a with
  | some s => if s != "" then s else b
  | none => b

/-- The source descriptor: the keys of the `meta` mapping that
conda_build/source.py reads.  A field holds `none` when the key is absent
from the recipe's descriptor.  `patches` models `meta.get('patches', [])`. -/
structure Meta where
  fn : Option String
  url : Option String
  md5 : Option String
  sha1 : Option String
  sha256 : Option String
  git_url : Option String
  git_tag : Option String
  git_branch : Option String
  hg_url : Option String
  hg_tag : Option String
  svn_url : Option String
  svn_rev : Option String
  svn_ignore_externals : Option String
  patches : List String
  deriving DecidableEq, Repr

/-- A descriptor with every recognized key absent. -/
def emptyMeta : Meta :=
  ⟨none, none, none, none, none, none, none, none, none, none, none, none, none, []⟩

/-- The three digest algorithms download_to_cache iterates over, in the
order of the Python loop `for tp in 'md5', 'sha1', 'sha256'`. -/
inductive Algo
  | md5
  | sha1
  | sha256
  deriving DecidableEq, Repr

/-- meta[tp] for the three digest keys. -/
def metaDigest (m : Meta) : Algo → Option String
  | Algo.md5 => m.md5
  | Algo.sha1 => m.sha1
  | Algo.sha256 => m.sha256

/-- The descriptor with the digest key for one algorithm replaced. -/
def setDigest (m : Meta) : Algo → Option String → Meta
  | Algo.md5, v => ⟨m.fn, m.url, v, m.sha1, m.sha256, m.git_url, m.git_tag,
      m.git_branch, m.hg_url, m.hg_tag, m.svn_url, m.svn_rev,
      m.svn_ignore_externals, m.patches⟩
  | Algo.sha1, v => ⟨m.fn, m.url, m.md5, v, m.sha256, m.git_url, m.git_tag,
      m.git_branch, m.hg_url, m.hg_tag, m.svn_url, m.svn_rev,
      m.svn_ignore_externals, m.patches⟩
  | Algo.sha256, v => ⟨m.fn, m.url, m.md5, m.sha1, v, m.git_url, m.git_tag,
      m.git_branch, m.hg_url, m.hg_tag, m.svn_url, m.svn_rev,
      m.svn_ignore_externals, m.patches⟩

/-- The hex digests of the cached archive file, one per algorithm: the
values conda.utils.hashsum_file (an external collaborator) computes from
the file's content.  Python's hashlib produces lowercase hex strings, but
the model keeps the field arbitrary so that theorems quantify over it. -/
structure FileHashes where
  md5 : String
  sha1 : String
  sha256 : String
  deriving DecidableEq, Repr

/-- hashsum_file(path, tp) for the cached file described by `h`. -/
def hashsum_file (h : FileHashes) : Algo → String
  | Algo.md5 => h.md5
  | Algo.sha1 => h.sha1
  | Algo.sha256 => h.sha256

/-- The data of the RuntimeError raised on a digest mismatch. -/
structure DigestMismatch where
  tp : Algo
  computed : String
  expected : String
  deriving DecidableEq, Repr

/-- One iteration of the digest loop in download_to_cache:
`if meta.get(tp) and hashsum_file(path, tp) != meta[tp]: raise RuntimeError`.
The guard only fires for a truthy stored value, and the comparison is exact
string inequality. -/
def checkDigest (m : Meta) (h : FileHashes) (tp : Algo) : Except DigestMismatch Unit :=
  if pyTruthy (metaDigest m tp) && (hashsum_file h tp != (metaDigest m tp).getD "") then
    Except.error ⟨tp, hashsum_file h tp, (metaDigest m tp).getD ""⟩
  else
    Except.ok ()

/-- The verification part of download_to_cache: the loop
`for tp in 'md5', 'sha1', 'sha256'`, raising on the first mismatch. -/
def verifyDigests (m : Meta) (h : FileHashes) : Except DigestMismatch Unit := do
  checkDigest m h Algo.md5
  checkDigest m h Algo.sha1
  checkDigest m h Algo.sha256

/-- Case-insensitive equality of two hex strings, as the specification's
claim describes the comparison. -/
def hexEqCI (a b : String) : Bool := pyLower a == pyLower b

/-- The action unpack takes, decided by the suffix dispatch on the cached
file's path. -/
inductive UnpackAction
  | tarExtract
  | zipExtract
  | copyWithWarning
  deriving DecidableEq, Repr

/-- The tuple of suffixes in unpack's first branch,
`src_path.lower().endswith(('.tar.gz', '.tar.bz2', '.tgz', '.tar.xz', '.tar'))`. -/
def tarSuffixes : List String := [".tar.gz", ".tar.bz2", ".tgz", ".tar.xz", ".tar"]

/-- The suffix dispatch of unpack: tar formats first, then zip, otherwise
the file is copied into the work directory with a printed warning (no
error).  Python's endswith on a tuple is true when any member matches. -/
def unpackAction (src_path : String) : UnpackAction :=
  if tarSuffixes.any (fun s => pyEndsWith (pyLower src_path) s) then
    UnpackAction.tarExtract
  else if pyEndsWith (pyLower src_path) ".zip" then
    UnpackAction.zipExtract
  else
    UnpackAction.copyWithWarning

/-- An external command invocation: argv and the directory it runs in
(`none` when check_call is given no cwd, i.e. the process's own). -/
structure Cmd where
  argv : List String
  cwd : Option String
  deriving DecidableEq, Repr

/-- Python url.split(':')[-1]. -/
def splitColonLast (s : String) : String := (s.splitOn ":").getLastD ""

/-- Python url.split(':', 1)[-1]: everything after the first colon, or the
whole string when it has none. -/
def splitColonOnceLast (s : String) : String :=
  match s.splitOn ":" with
  | [] => s
  | [x] => x
  | _ :: rest => String.intercalate ":" rest

/-- git_dn of git_source: `git_url.split(':')[-1].replace('/', '_')`. -/
def git_dn (git_url : String) : String := (splitColonLast git_url).replace "/" "_"

/-- cache_repo of git_source: `join(GIT_CACHE, git_dn)`. -/
def git_cache_repo (gitCacheDir git_url : String) : String :=
  pyJoin gitCacheDir (git_dn git_url)

/-- checkout of git_source:
`meta.get('git_tag') or meta.get('git_branch') or 'master'`. -/
def gitCheckout (m : Meta) : String := pyOrStr m.git_tag (pyOrStr m.git_branch "master")

/-- The check_call invocations git_source issues, in order, as a function
of whether the mirror directory `cache_repo` already exists (the
`isdir(cache_repo)` test).  Modelled for a non-Windows platform, where
cache_repo_arg equals cache_repo. -/
def git_source_cmds (gitCacheDir workDir : String) (m : Meta) (cacheExists : Bool) :
    List Cmd :=
  let url := m.git_url.getD ""
  let cache_repo := git_cache_repo gitCacheDir url
  (if cacheExists then
    [⟨["git", "fetch"], some cache_repo⟩]
  else
    [⟨["git", "clone", "--mirror", url, cache_repo], none⟩])
  ++ [⟨["git", "clone", cache_repo, workDir], none⟩,
      ⟨["git", "checkout", gitCheckout m], some workDir⟩]

/-- hg_dn of hg_source: `hg_url.split(':')[-1].replace('/', '_')`. -/
def hg_dn (hg_url : String) : String := (splitColonLast hg_url).replace "/" "_"

/-- cache_repo of hg_source: `join(HG_CACHE, hg_dn)`. -/
def hg_cache_repo (hgCacheDir hg_url : String) : String :=
  pyJoin hgCacheDir (hg_dn hg_url)

/-- update of hg_source: `meta.get('hg_tag') or 'tip'`. -/
def hgUpdateRef (m : Meta) : String := pyOrStr m.hg_tag "tip"

/-- The check_call invocations hg_source issues, in order, as a function
of whether the mirror directory already exists. -/
def hg_source_cmds (hgCacheDir workDir : String) (m : Meta) (cacheExists : Bool) :
    List Cmd :=
  let url := m.hg_url.getD ""
  let cache_repo := hg_cache_repo hgCacheDir url
  (if cacheExists then
    [⟨["hg", "pull"], some cache_repo⟩]
  else
    [⟨["hg", "clone", url, cache_repo], none⟩])
  ++ [⟨["hg", "clone", cache_repo, workDir], none⟩,
      ⟨["hg", "update", "-C", hgUpdateRef m], some workDir⟩]

/-- A step of svn_source: either an svn command or the final
`copytree(cache_repo, WORK_DIR, ignore=ignore_patterns('.svn'))`. -/
inductive SvnStep
  | runCmd (c : Cmd)
  | copyTreeWithoutSvnMeta (src dst : String)
  deriving DecidableEq, Repr

/-- parse_bool of svn_source:
`str(s).lower().strip() in ('yes', 'true', '1', 'on')`. -/
def parse_bool (s : String) : Bool :=
  let t := pyStrip (pyLower s)
  t == "yes" || t == "true" || t == "1" || t == "on"

/-- svn_revision of svn_source: `meta.get('svn_rev') or 'head'`. -/
def svnRevision (m : Meta) : String := pyOrStr m.svn_rev "head"

/-- svn_ignore_externals of svn_source:
`parse_bool(meta.get('svn_ignore_externals') or 'no')`. -/
def svnIgnoreExternals (m : Meta) : Bool :=
  parse_bool (pyOrStr m.svn_ignore_externals "no")

/-- svn_dn of svn_source:
`svn_url.split(':', 1)[-1].replace('/', '_').replace(':', '_')`. -/
def svn_dn (svn_url : String) : String :=
  ((splitColonOnceLast svn_url).replace "/" "_").replace ":" "_"

/-- cache_repo of svn_source: `join(SVN_CACHE, svn_dn)`. -/
def svn_cache_repo (svnCacheDir svn_url : String) : String :=
  pyJoin svnCacheDir (svn_dn svn_url)

/-- The steps svn_source performs, in order, as a function of whether the
mirror directory already exists: update or checkout of the pinned
revision into the cache, then a metadata-excluding directory copy into
the work directory. -/
def svn_source_steps (svnCacheDir workDir : String) (m : Meta) (cacheExists : Bool) :
    List SvnStep :=
  let url := m.svn_url.getD ""
  let cache_repo := svn_cache_repo svnCacheDir url
  let extra_args := if svnIgnoreExternals m then ["--ignore-externals"] else []
  (if cacheExists then
    [SvnStep.runCmd ⟨["svn", "up", "-r", svnRevision m] ++ extra_args, some cache_repo⟩]
  else
    [SvnStep.runCmd ⟨["svn", "co", "-r", svnRevision m] ++ extra_args
        ++ [url, cache_repo], none⟩])
  ++ [SvnStep.copyTreeWithoutSvnMeta cache_repo workDir]

/-- A top-level entry of the work directory: its name and whether
`isdir(join(WORK_DIR, name))` holds. -/
structure Entry where
  name : String
  isDir : Bool
  deriving DecidableEq, Repr

/-- get_dir of source.py, given WORK_DIR's path and its entry listing:
when exactly one non-hidden entry exists and it is a directory, that
subdirectory is returned, otherwise WORK_DIR itself.  (The makedirs branch
of get_dir only fires when WORK_DIR is absent, which cannot happen at its
call site inside provide.) -/
def get_dir (work_dir : String) (entries : List Entry) : String :=
  let lst := entries.filter (fun e => !(pyStartsWith e.name "."))
  match lst with
  | [e] => if e.isDir then pyJoin work_dir e.name else work_dir
  | _ => work_dir

/-- The pieces of the environment apply_patch consults: which paths are
existing files (os.path.isfile), the result of
external.find_executable('patch') — modelled from the spec: the
conda_build.external helper, not part of the sources at hand, returns the
tool's path or None when the tool is absent — and whether the patch
subprocess for a given patch file exits successfully. -/
structure PatchEnv where
  isfile : String → Bool
  patchTool : Option String
  patchExitOk : String → Bool

/-- The fatal outcomes of apply_patch: the sys.exit for a missing patch
file, the sys.exit for a missing patch tool, and the CalledProcessError
check_call raises on a non-zero exit of the patch command. -/
inductive PatchErr
  | noSuchPatch (path : String)
  | patchToolMissing
  | patchFailed (path : String)
  deriving DecidableEq, Repr

/-- apply_patch(src_dir, path): first the isfile test on the patch file,
then the lookup of the patch executable, then
`check_call([patch, '-p0', '-i', path], cwd=src_dir)`.  On success the
command that ran is returned. -/
def apply_patch (env : PatchEnv) (src_dir path : String) : Except PatchErr Cmd :=
  if !(env.isfile path) then
    Except.error (PatchErr.noSuchPatch path)
  else
    match env.patchTool with
    | none => Except.error PatchErr.patchToolMissing
    | some exe =>
      if env.patchExitOk path then
        Except.ok ⟨[exe, "-p0", "-i", path], some src_dir⟩
      else
        Except.error (PatchErr.patchFailed path)

/-- The patch loop at the end of provide:
`for patch in meta.get('patches', []): apply_patch(src_dir, join(recipe_dir, patch))`.
Returns the patch commands that ran, in order, together with the error
that stopped the loop, if any; commands that ran before the error are kept
(nothing is rolled back). -/
def applyPatches (env : PatchEnv) (src_dir recipe_dir : String) :
    List String → List Cmd × Option PatchErr
  | [] => ([], none)
  | p :: ps =>
    match apply_patch env src_dir (pyJoin recipe_dir p) with
    | Except.error e => ([], some e)
    | Except.ok c =>
      match applyPatches env src_dir recipe_dir ps with
      | (cs, e) => (c :: cs, e)

/-- The acquisition path provide dispatches to, by presence of the
identity keys (`'fn' in meta`, then `'git_url' in meta`, ...). -/
inductive SourceKind
  | archive
  | git
  | hg
  | svn
  | noSource
  deriving DecidableEq, Repr

/-- The dispatch chain of provide:
`if 'fn' in meta: ... elif 'git_url' ... elif 'hg_url' ... elif 'svn_url' ... else ...`.
Key presence is what Python's `in` tests, regardless of the value. -/
def dispatch (m : Meta) : SourceKind :=
  if m.fn.isSome then SourceKind.archive
  else if m.git_url.isSome then SourceKind.git
  else if m.hg_url.isSome then SourceKind.hg
  else if m.svn_url.isSome then SourceKind.svn
  else SourceKind.noSource

/-- The environment provide runs in.  `acquire` gives, for each of the
four real acquisition paths, either the entry list that path deposits in
the freshly created work directory or the error that aborts it (download
or digest failure for unpack, a failing subprocess for the VCS paths);
it is a function of the descriptor and the environment only — none of the
acquisition code reads the work directory's prior contents, which rm_rf
removed.  `patchEffect` gives the effect of one successful patch command
on the work directory's entry listing.  `patchEnv` is the environment of
apply_patch. -/
structure ProvideEnv where
  acquire : SourceKind → Except String (List Entry)
  patchEffect : Cmd → List Entry → List Entry
  patchEnv : PatchEnv

/-- The outcome of one acquisition step inside provide: the no-source
branch is `os.makedirs(WORK_DIR)`, an empty directory, and cannot fail. -/
def acquireKind (env : ProvideEnv) : SourceKind → Except String (List Entry)
  | SourceKind.noSource => Except.ok []
  | k => env.acquire k

/-- Modelled from the spec: rm_rf lives in conda_build.utils, which is
not among the sources at hand; the specification states that under it
the working directory is fully removed (if present), unconditionally,
even if a previous run failed mid-provisioning.  On the model's state it
maps any prior contents of the directory to the removed state. -/
def rm_rf : Option (List Entry) → Option (List Entry) := fun _ => none

/-- The errors that abort a provide call. -/
inductive ProvideErr
  | acquireFailed (msg : String)
  | patchErr (e : PatchErr)
  deriving DecidableEq, Repr

/-- The externally visible events of a provide call, in program order. -/
inductive Event
  | rmrfWorkDir
  | acquired (k : SourceKind)
  | ranPatch (c : Cmd)
  deriving DecidableEq, Repr

/-- The result of a provide call: its event trace, the final contents of
the work directory (`none` when the run aborted and the model does not
track the directory further), the Python return value, and the error if
any.  `ret` is `none` exactly when the Python function returns None. -/
structure ProvideOut where
  events : List Event
  work : Option (List Entry)
  ret : Option String
  err : Option ProvideErr
  deriving DecidableEq, Repr

/-- provide(recipe_dir, meta, patch=True) of source.py.  `init` is the
work directory's contents before the call (`none` when it does not
exist); the first statement, rm_rf(WORK_DIR), discards it
unconditionally, so `init` influences nothing downstream.  Then the
dispatch populates the directory, and the patch loop runs get_dir once
and applies each patch of the descriptor in order.  On an aborted
acquisition the model stops tracking the directory (the field stays at
the reset state).  The function body has no return statement, so the
returned value is None. -/
def provide (env : ProvideEnv) (work_dir recipe_dir : String) (m : Meta)
    (patch : Bool) (init : Option (List Entry)) : ProvideOut :=
  let st0 := rm_rf init
  let k := dispatch m
  match acquireKind env k with
  | Except.error msg =>
    ⟨[Event.rmrfWorkDir], st0, none, some (ProvideErr.acquireFailed msg)⟩
  | Except.ok entries =>
    let ev := [Event.rmrfWorkDir, Event.acquired k]
    if patch then
      let src_dir := get_dir work_dir entries
      match applyPatches env.patchEnv src_dir recipe_dir m.patches with
      | (cmds, perr) =>
        let final := cmds.foldl (fun es c => env.patchEffect c es) entries
        ⟨ev ++ cmds.map Event.ranPatch, some final, none,
          perr.map ProvideErr.patchErr⟩
    else
      ⟨ev, some entries, none, none⟩

theorem algo_forall (P : Algo → Prop) :
    (∀ a, P a) ↔ P Algo.md5 ∧ P Algo.sha1 ∧ P Algo.sha256 := by
  constructor
  · intro h
    exact ⟨h _, h _, h _⟩
  · rintro ⟨h1, h2, h3⟩ a
    cases a
    · exact h1
    · exact h2
    · exact h3

theorem checkDigest_ok_iff (m : Meta) (h : FileHashes) (a : Algo) :
    checkDigest m h a = Except.ok () ↔
      (pyTruthy (metaDigest m a) = true →
        hashsum_file h a = (metaDigest m a).getD "") := by
  unfold checkDigest
  cases hc : pyTruthy (metaDigest m a) && (hashsum_file h a != (metaDigest m a).getD "")
  · simp only [Bool.and_eq_false_imp, bne_eq_false_iff_eq] at hc
    simpa using hc
  · simp only [Bool.and_eq_true, bne_iff_ne] at hc
    simp [hc.1, hc.2]

theorem verifyDigests_ok_iff (m : Meta) (h : FileHashes) :
    verifyDigests m h = Except.ok () ↔ ∀ a, checkDigest m h a = Except.ok () := by
  rw [algo_forall]
  unfold verifyDigests
  cases h1 : checkDigest m h Algo.md5 <;>
    cases h2 : checkDigest m h Algo.sha1 <;>
    cases h3 : checkDigest m h Algo.sha256 <;>
    simp [h1, h2, h3, Bind.bind, Except.bind]

theorem metaDigest_setDigest (m : Meta) (a b : Algo) (v : Option String) :
    metaDigest (setDigest m a v) b = if b = a then v else metaDigest m b := by
  cases a <;> cases b <;> simp [setDigest, metaDigest]

/-- C2, corrected: the digest comparison in download_to_cache is exact
string comparison, not case-insensitive.  Verification succeeds if and
only if, for every algorithm whose stored digest is truthy, the computed
hex digest equals the stored one byte for byte; and when no digests are
supplied verification never fails. -/
theorem C2_verify_exact_comparison (m : Meta) (h : FileHashes) :
    (verifyDigests m h = Except.ok () ↔
      ∀ a, pyTruthy (metaDigest m a) = true →
        hashsum_file h a = (metaDigest m a).getD "") ∧
    (m.md5 = none → m.sha1 = none → m.sha256 = none →
      verifyDigests m h = Except.ok ()) := by
  constructor
  · rw [verifyDigests_ok_iff]
    constructor
    · intro hall a
      exact (checkDigest_ok_iff m h a).1 (hall a)
    · intro hall a
      exact (checkDigest_ok_iff m h a).2 (hall a)
  · intro h1 h2 h3
    rw [verifyDigests_ok_iff]
    intro a
    rw [checkDigest_ok_iff]
    cases a <;> simp [metaDigest, h1, h2, h3, pyTruthy]

/-- Witness for C2_verify_exact_comparison at a concrete descriptor and
file: a correct lowercase md5 digest passes, and a digest-free descriptor
passes. -/
theorem C2_verify_exact_comparison_witness :
    verifyDigests
      ⟨some "x.tar.gz", none, some "d41d8cd98f00b204e9800998ecf8427e", none,
        none, none, none, none, none, none, none, none, none, []⟩
      ⟨"d41d8cd98f00b204e9800998ecf8427e", "s1", "s2"⟩ = Except.ok () ∧
    verifyDigests emptyMeta ⟨"a", "b", "c"⟩ = Except.ok () :=
  ⟨(C2_verify_exact_comparison _ _).1.mpr (by intro a; cases a <;> decide),
   (C2_verify_exact_comparison emptyMeta ⟨"a", "b", "c"⟩).2 rfl rfl rfl⟩

/-- Counterexample to C2 as stated: a descriptor whose md5 key holds the
uppercase form of the file's md5 digest.  The two hex strings are equal
case-insensitively, so the claim says verification must not fail, yet the
code's exact comparison raises a mismatch. -/
theorem C2_counterexample_case_sensitive :
    hexEqCI
      (hashsum_file ⟨"d41d8cd98f00b204e9800998ecf8427e", "s1", "s2"⟩ Algo.md5)
      "D41D8CD98F00B204E9800998ECF8427E" = true ∧
    verifyDigests
      ⟨some "x.tar.gz", none, some "D41D8CD98F00B204E9800998ECF8427E", none,
        none, none, none, none, none, none, none, none, none, []⟩
      ⟨"d41d8cd98f00b204e9800998ecf8427e", "s1", "s2"⟩ ≠ Except.ok () := by
  decide

/-- C10: a digest key holding a falsy value (such as the empty string) is
skipped entirely: the descriptor behaves exactly as if the key were
absent, and when every digest key is falsy verification passes no matter
what the file's digests are. -/
theorem C10_falsy_digest_skipped (m : Meta) (h : FileHashes) (a : Algo)
    (hf : pyTruthy (metaDigest m a) = false) :
    verifyDigests m h = verifyDigests (setDigest m a none) h ∧
    ((∀ b, pyTruthy (metaDigest m b) = false) → verifyDigests m h = Except.ok ()) := by
  constructor
  · have hc : ∀ b, checkDigest m h b = checkDigest (setDigest m a none) h b := by
      intro b
      unfold checkDigest
      rw [metaDigest_setDigest]
      by_cases hb : b = a
      · rw [if_pos hb, hb, hf]
        simp [pyTruthy]
      · rw [if_neg hb]
    unfold verifyDigests
    rw [hc, hc, hc]
  · intro hall
    rw [verifyDigests_ok_iff]
    intro b
    rw [checkDigest_ok_iff, hall b]
    intro hcontra
    cases hcontra

/-- Witness for C10_falsy_digest_skipped: a descriptor whose md5 key is
the empty string and whose other digest keys are absent passes
verification against arbitrary file digests. -/
theorem C10_falsy_digest_skipped_witness :
    verifyDigests
      ⟨some "x.zip", none, some "", none, none, none, none, none, none,
        none, none, none, none, []⟩
      ⟨"deadbeef", "cafe", "f00d"⟩ = Except.ok () :=
  (C10_falsy_digest_skipped
    ⟨some "x.zip", none, some "", none, none, none, none, none, none,
      none, none, none, none, []⟩
    ⟨"deadbeef", "cafe", "f00d"⟩ Algo.md5 (by decide)).2 (by intro b; cases b <;> decide)

/-- C6: unpack dispatches purely on the case-insensitive filename suffix:
one of the tar suffixes selects tar extraction, otherwise .zip selects zip
extraction, and any other suffix is not an error — the file is copied
as-is with a warning. -/
theorem C6_unpack_suffix_dispatch (p : String) :
    (unpackAction p = UnpackAction.tarExtract ↔
      ∃ s, s ∈ tarSuffixes ∧ pyEndsWith (pyLower p) s = true) ∧
    (unpackAction p = UnpackAction.zipExtract ↔
      (¬ (∃ s, s ∈ tarSuffixes ∧ pyEndsWith (pyLower p) s = true) ∧
        pyEndsWith (pyLower p) ".zip" = true)) ∧
    (unpackAction p = UnpackAction.copyWithWarning ↔
      (¬ (∃ s, s ∈ tarSuffixes ∧ pyEndsWith (pyLower p) s = true) ∧
        pyEndsWith (pyLower p) ".zip" = false)) := by
  unfold unpackAction
  by_cases hT : tarSuffixes.any (fun s => pyEndsWith (pyLower p) s) = true
  · rw [List.any_eq_true] at hT
    simp only [List.any_eq_true]
    simp [hT]
  · have hT' : tarSuffixes.any (fun s => pyEndsWith (pyLower p) s) = false := by
      cases hv : tarSuffixes.any (fun s => pyEndsWith (pyLower p) s)
      · rfl
      · exact absurd hv hT
    rw [List.any_eq_true] at hT
    simp only [List.any_eq_true]
    cases hz : pyEndsWith (pyLower p) ".zip" <;> simp [hT', hT, hz]

theorem apply_patch_ok (env : PatchEnv) (src_dir path exe : String)
    (h1 : env.isfile path = true) (hexe : env.patchTool = some exe)
    (h2 : env.patchExitOk path = true) :
    apply_patch env src_dir path =
      Except.ok ⟨[exe, "-p0", "-i", path], some src_dir⟩ := by
  simp [apply_patch, h1, hexe, h2]

theorem apply_patch_missing (env : PatchEnv) (src_dir path : String)
    (h : env.isfile path = false) :
    apply_patch env src_dir path = Except.error (PatchErr.noSuchPatch path) := by
  simp [apply_patch, h]

/-- C7: each VCS provider updates an existing mirror in place (git fetch,
hg pull, svn up, run inside the mirror directory) and does not contact
the remote with a fresh clone; a missing mirror is created by cloning the
remote URL into the cache, for Git in mirror mode; and in both cases the
working directory is materialized from the local mirror path (a clone
from cache_repo for git and hg, a metadata-excluding copy of cache_repo
for svn), never from the remote URL. -/
theorem C7_vcs_mirror_protocol (gitCacheDir hgCacheDir svnCacheDir workDir : String)
    (m : Meta) :
    (git_source_cmds gitCacheDir workDir m true =
      [⟨["git", "fetch"], some (git_cache_repo gitCacheDir (m.git_url.getD ""))⟩,
       ⟨["git", "clone", git_cache_repo gitCacheDir (m.git_url.getD ""), workDir], none⟩,
       ⟨["git", "checkout", gitCheckout m], some workDir⟩]) ∧
    (git_source_cmds gitCacheDir workDir m false =
      [⟨["git", "clone", "--mirror", m.git_url.getD "",
          git_cache_repo gitCacheDir (m.git_url.getD "")], none⟩,
       ⟨["git", "clone", git_cache_repo gitCacheDir (m.git_url.getD ""), workDir], none⟩,
       ⟨["git", "checkout", gitCheckout m], some workDir⟩]) ∧
    (∀ b, (⟨["git", "clone", git_cache_repo gitCacheDir (m.git_url.getD ""), workDir],
        none⟩ : Cmd) ∈ git_source_cmds gitCacheDir workDir m b) ∧
    (hg_source_cmds hgCacheDir workDir m true =
      [⟨["hg", "pull"], some (hg_cache_repo hgCacheDir (m.hg_url.getD ""))⟩,
       ⟨["hg", "clone", hg_cache_repo hgCacheDir (m.hg_url.getD ""), workDir], none⟩,
       ⟨["hg", "update", "-C", hgUpdateRef m], some workDir⟩]) ∧
    (hg_source_cmds hgCacheDir workDir m false =
      [⟨["hg", "clone", m.hg_url.getD "", hg_cache_repo hgCacheDir (m.hg_url.getD "")],
        none⟩,
       ⟨["hg", "clone", hg_cache_repo hgCacheDir (m.hg_url.getD ""), workDir], none⟩,
       ⟨["hg", "update", "-C", hgUpdateRef m], some workDir⟩]) ∧
    (∀ b, (⟨["hg", "clone", hg_cache_repo hgCacheDir (m.hg_url.getD ""), workDir],
        none⟩ : Cmd) ∈ hg_source_cmds hgCacheDir workDir m b) ∧
    (svn_source_steps svnCacheDir workDir m true =
      [SvnStep.runCmd ⟨["svn", "up", "-r", svnRevision m]
          ++ (if svnIgnoreExternals m then ["--ignore-externals"] else []),
        some (svn_cache_repo svnCacheDir (m.svn_url.getD ""))⟩,
       SvnStep.copyTreeWithoutSvnMeta
         (svn_cache_repo svnCacheDir (m.svn_url.getD "")) workDir]) ∧
    (svn_source_steps svnCacheDir workDir m false =
      [SvnStep.runCmd ⟨["svn", "co", "-r", svnRevision m]
          ++ (if svnIgnoreExternals m then ["--ignore-externals"] else [])
          ++ [m.svn_url.getD "", svn_cache_repo svnCacheDir (m.svn_url.getD "")], none⟩,
       SvnStep.copyTreeWithoutSvnMeta
         (svn_cache_repo svnCacheDir (m.svn_url.getD "")) workDir]) ∧
    (∀ b, SvnStep.copyTreeWithoutSvnMeta
        (svn_cache_repo svnCacheDir (m.svn_url.getD "")) workDir
        ∈ svn_source_steps svnCacheDir workDir m b) := by
  refine ⟨rfl, rfl, ?_, rfl, rfl, ?_, rfl, rfl, ?_⟩
  · intro b
    cases b <;> simp [git_source_cmds]
  · intro b
    cases b <;> simp [hg_source_cmds]
  · intro b
    cases b <;> simp [svn_source_steps]

/-- C5: patches are applied strictly in declared order, each resolved as
recipe_dir/entry; when every entry exists and applies cleanly the loop
runs one patch command per entry in order, and when an entry's resolved
path is not a file the loop exits with the missing-patch error after
having run exactly the commands of the earlier entries — nothing later is
attempted and nothing earlier is rolled back. -/
theorem C5_patch_order_and_missing_abort (env : PatchEnv)
    (src_dir recipe_dir exe : String) (hexe : env.patchTool = some exe) :
    (∀ ps : List String,
      (∀ q ∈ ps, env.isfile (pyJoin recipe_dir q) = true ∧
        env.patchExitOk (pyJoin recipe_dir q) = true) →
      applyPatches env src_dir recipe_dir ps =
        (ps.map (fun q =>
          (⟨[exe, "-p0", "-i", pyJoin recipe_dir q], some src_dir⟩ : Cmd)), none)) ∧
    (∀ pre p post,
      (∀ q ∈ pre, env.isfile (pyJoin recipe_dir q) = true ∧
        env.patchExitOk (pyJoin recipe_dir q) = true) →
      env.isfile (pyJoin recipe_dir p) = false →
      applyPatches env src_dir recipe_dir (pre ++ p :: post) =
        (pre.map (fun q =>
          (⟨[exe, "-p0", "-i", pyJoin recipe_dir q], some src_dir⟩ : Cmd)),
         some (PatchErr.noSuchPatch (pyJoin recipe_dir p)))) := by
  constructor
  · intro ps hall
    induction ps with
    | nil => rfl
    | cons q qs ih =>
      have hq := hall q (List.mem_cons_self q qs)
      have step := apply_patch_ok env src_dir (pyJoin recipe_dir q) exe hq.1 hexe hq.2
      have rest := ih (fun r hr => hall r (List.mem_cons_of_mem q hr))
      simp [applyPatches, step, rest]
  · intro pre p post hall hp
    induction pre with
    | nil =>
      have step := apply_patch_missing env src_dir (pyJoin recipe_dir p) hp
      simp [applyPatches, step]
    | cons q qs ih =>
      have hq := hall q (List.mem_cons_self q qs)
      have step := apply_patch_ok env src_dir (pyJoin recipe_dir q) exe hq.1 hexe hq.2
      have rest := ih (fun r hr => hall r (List.mem_cons_of_mem q hr))
      simp [applyPatches, step, rest]

/-- Witness for C5_patch_order_and_missing_abort: two good patches run in
order; and with the second patch file absent the loop stops there, keeps
the first command, and never reaches the third entry. -/
theorem C5_patch_order_and_missing_abort_witness :
    applyPatches ⟨fun q => q != "r/fix2.patch", some "patchbin", fun _ => true⟩
        "W" "r" ["fix1.patch", "fix2.patch", "fix3.patch"] =
      (["fix1.patch"].map (fun q =>
        (⟨["patchbin", "-p0", "-i", pyJoin "r" q], some "W"⟩ : Cmd)),
       some (PatchErr.noSuchPatch (pyJoin "r" "fix2.patch"))) :=
  (C5_patch_order_and_missing_abort
      ⟨fun q => q != "r/fix2.patch", some "patchbin", fun _ => true⟩
      "W" "r" "patchbin" rfl).2
    ["fix1.patch"] "fix2.patch" ["fix3.patch"] (by decide) (by decide)

/-- C9, amended: when the patch tool is absent and the patch list is
non-empty, the loop stops at its first entry before running any patch
command, but the error it reports is the patch-tool configuration error
only when the first patch file exists; apply_patch tests isfile before
looking for the tool, so a missing first patch file is reported as the
missing-patch error instead. -/
theorem C9_no_patch_tool_stops_first (env : PatchEnv)
    (src_dir recipe_dir p : String) (ps : List String)
    (h : env.patchTool = none) :
    applyPatches env src_dir recipe_dir (p :: ps) =
      ([], some (if env.isfile (pyJoin recipe_dir p) = true then
          PatchErr.patchToolMissing
        else PatchErr.noSuchPatch (pyJoin recipe_dir p))) := by
  cases hf : env.isfile (pyJoin recipe_dir p) <;>
    simp [applyPatches, apply_patch, h, hf]

/-- Witness for C9_no_patch_tool_stops_first: patch tool absent, first
patch file present — the configuration error is reported with no patch
command run. -/
theorem C9_no_patch_tool_stops_first_witness :
    applyPatches ⟨fun _ => true, none, fun _ => true⟩ "W" "r" ["fix1.patch"] =
      ([], some (if (⟨fun _ => true, none, fun _ => true⟩ : PatchEnv).isfile
          (pyJoin "r" "fix1.patch") = true then
        PatchErr.patchToolMissing
      else PatchErr.noSuchPatch (pyJoin "r" "fix1.patch"))) :=
  C9_no_patch_tool_stops_first ⟨fun _ => true, none, fun _ => true⟩
    "W" "r" "fix1.patch" [] rfl

/-- Counterexample to C9 as stated: the patch tool is absent and the
patch list non-empty, yet no configuration error is reported — the first
patch file does not exist, and apply_patch's isfile test fires first, so
the missing-patch exit is what the user sees. -/
theorem C9_counterexample_missing_file_first :
    (applyPatches ⟨fun _ => false, none, fun _ => true⟩ "W" "r" ["fix1.patch"]).2 =
      some (PatchErr.noSuchPatch "r/fix1.patch") ∧
    (applyPatches ⟨fun _ => false, none, fun _ => true⟩ "W" "r" ["fix1.patch"]).2 ≠
      some PatchErr.patchToolMissing := by
  decide

/-- C8, amended: every patch is invoked with strip level 0 (the -p0
argument, no path-component stripping), with get_dir's result as the
application root; that root is the working directory itself unless the
directory holds exactly one non-hidden entry that is a directory, in
which case the root is that single subdirectory. -/
theorem C8_patch_root_and_strip_level (env : PatchEnv) (work_dir : String)
    (entries : List Entry) (path exe : String)
    (hexe : env.patchTool = some exe)
    (hf : env.isfile path = true) (hok : env.patchExitOk path = true) :
    apply_patch env (get_dir work_dir entries) path =
      Except.ok ⟨[exe, "-p0", "-i", path], some (get_dir work_dir entries)⟩ ∧
    (get_dir work_dir entries = work_dir ∨
      ∃ e, entries.filter (fun x => !(pyStartsWith x.name ".")) = [e] ∧
        e.isDir = true ∧ get_dir work_dir entries = pyJoin work_dir e.name) := by
  constructor
  · exact apply_patch_ok env _ path exe hf hexe hok
  · unfold get_dir
    cases hl : entries.filter (fun x => !(pyStartsWith x.name ".")) with
    | nil => left; rfl
    | cons e rest =>
      cases rest with
      | nil =>
        cases he : e.isDir
        · left
          simp [he]
        · right
          exact ⟨e, rfl, he, by simp [he]⟩
      | cons f rest2 => left; rfl

/-- Witness for C8_patch_root_and_strip_level: a work directory holding
one hidden entry and one regular file is its own patch root. -/
theorem C8_patch_root_and_strip_level_witness :
    apply_patch ⟨fun _ => true, some "patchbin", fun _ => true⟩
        (get_dir "W" [⟨".git", true⟩, ⟨"setup.py", false⟩]) "r/fix.patch" =
      Except.ok ⟨["patchbin", "-p0", "-i", "r/fix.patch"],
        some (get_dir "W" [⟨".git", true⟩, ⟨"setup.py", false⟩])⟩ :=
  (C8_patch_root_and_strip_level ⟨fun _ => true, some "patchbin", fun _ => true⟩
    "W" [⟨".git", true⟩, ⟨"setup.py", false⟩] "r/fix.patch" "patchbin"
    rfl rfl rfl).1

/-- Counterexample to C8 as stated: after a typical archive extraction
the work directory holds exactly one non-hidden entry, an extracted tree,
and the patch command's application root is that subdirectory, not the
working directory. -/
theorem C8_counterexample_subdir_root :
    get_dir "W" [⟨"bitarray-0.8.0", true⟩] ≠ "W" ∧
    apply_patch ⟨fun _ => true, some "patchbin", fun _ => true⟩
        (get_dir "W" [⟨"bitarray-0.8.0", true⟩]) "r/fix.patch" =
      Except.ok ⟨["patchbin", "-p0", "-i", "r/fix.patch"],
        some "W/bitarray-0.8.0"⟩ := by
  decide

/-- A provide environment for concrete runs: every acquisition path
deposits one extracted tree, patches succeed and leave the entry listing
unchanged. -/
def envOkTree : ProvideEnv :=
  ⟨fun _ => Except.ok [⟨"bitarray-0.8.0", true⟩],
   fun _ l => l,
   ⟨fun _ => true, some "patchbin", fun _ => true⟩⟩

/-- A descriptor holding only an archive identity. -/
def mArchive : Meta :=
  ⟨some "bitarray-0.8.0.tar.gz", some "http://host/bitarray-0.8.0.tar.gz",
    none, none, none, none, none, none, none, none, none, none, none, []⟩

/-- A descriptor holding only a Git identity. -/
def mGitOnly : Meta :=
  ⟨none, none, none, none, none, some "git@host:repo.git", some "0.5.2",
    none, none, none, none, none, none, []⟩

/-- C1: rm_rf(WORK_DIR) is the first action of every provide call, before
any acquisition: the whole outcome is independent of the work directory's
prior contents (so no pre-existing file survives, even after a run that
failed mid-provisioning), the event trace opens with the removal, every
successful call leaves the directory holding exactly what the dispatched
acquisition path deposited (as later transformed by this call's own patch
commands, never by prior contents), and a successful patch-free no-source
call leaves it empty. -/
theorem C1_reset_discards_prior_state (env : ProvideEnv)
    (work_dir recipe_dir : String) (m : Meta) (patch : Bool)
    (init init' : Option (List Entry)) :
    provide env work_dir recipe_dir m patch init =
      provide env work_dir recipe_dir m patch init' ∧
    (provide env work_dir recipe_dir m patch init).events.head? =
      some Event.rmrfWorkDir ∧
    ((provide env work_dir recipe_dir m patch init).err = none →
      ∃ es, acquireKind env (dispatch m) = Except.ok es ∧
        ∃ cmds : List Cmd, (provide env work_dir recipe_dir m patch init).work =
          some (List.foldl (fun l c => env.patchEffect c l) es cmds)) ∧
    (patch = false → dispatch m = SourceKind.noSource →
      provide env work_dir recipe_dir m patch init =
        ⟨[Event.rmrfWorkDir, Event.acquired SourceKind.noSource],
          some [], none, none⟩) := by
  refine ⟨rfl, ?_, ?_, ?_⟩
  · cases ha : acquireKind env (dispatch m) with
    | error msg => simp [provide, ha]
    | ok es =>
      cases patch with
      | false => simp [provide, ha]
      | true =>
        rcases hap : applyPatches env.patchEnv (get_dir work_dir es)
            recipe_dir m.patches with ⟨cmds, perr⟩
        simp [provide, ha, hap]
  · intro herr
    cases ha : acquireKind env (dispatch m) with
    | error msg =>
      rw [provide, ha] at herr
      cases herr
    | ok es =>
      refine ⟨es, rfl, ?_⟩
      cases patch with
      | false =>
        refine ⟨[], ?_⟩
        simp [provide, ha]
      | true =>
        rcases hap : applyPatches env.patchEnv (get_dir work_dir es)
            recipe_dir m.patches with ⟨cmds, perr⟩
        refine ⟨cmds, ?_⟩
        simp [provide, ha, hap]
  · intro hpatch hdisp
    rw [provide, hdisp, hpatch]
    rfl

/-- Witness for C1_reset_discards_prior_state: a provide call over a
stale work directory holding a sentinel entry gives the same result as
one over an absent directory, and a no-source call leaves an empty
directory. -/
theorem C1_reset_discards_prior_state_witness :
    provide envOkTree "W" "r" mArchive false (some [⟨"sentinel.txt", false⟩]) =
      provide envOkTree "W" "r" mArchive false none ∧
    provide envOkTree "W" "r" emptyMeta false (some [⟨"sentinel.txt", false⟩]) =
      ⟨[Event.rmrfWorkDir, Event.acquired SourceKind.noSource],
        some [], none, none⟩ :=
  ⟨(C1_reset_discards_prior_state envOkTree "W" "r" mArchive false
      (some [⟨"sentinel.txt", false⟩]) none).1,
   (C1_reset_discards_prior_state envOkTree "W" "r" emptyMeta false
      (some [⟨"sentinel.txt", false⟩]) none).2.2.2 rfl (by decide)⟩

/-- C3: provide dispatches on which identity keys are present, first
match winning, in the priority fn, git_url, hg_url, svn_url; with none
present (and no patches declared) the call succeeds and leaves an empty
working directory. -/
theorem C3_dispatch_priority (env : ProvideEnv) (work_dir recipe_dir : String)
    (m : Meta) (patch : Bool) (init : Option (List Entry)) :
    (m.fn.isSome = true → dispatch m = SourceKind.archive) ∧
    (m.fn = none → m.git_url.isSome = true → dispatch m = SourceKind.git) ∧
    (m.fn = none → m.git_url = none → m.hg_url.isSome = true →
      dispatch m = SourceKind.hg) ∧
    (m.fn = none → m.git_url = none → m.hg_url = none →
      m.svn_url.isSome = true → dispatch m = SourceKind.svn) ∧
    (m.fn = none → m.git_url = none → m.hg_url = none → m.svn_url = none →
      m.patches = [] →
      dispatch m = SourceKind.noSource ∧
      (provide env work_dir recipe_dir m patch init).err = none ∧
      (provide env work_dir recipe_dir m patch init).work = some []) := by
  refine ⟨?_, ?_, ?_, ?_, ?_⟩
  · intro h1
    simp [dispatch, h1]
  · intro h1 h2
    simp [dispatch, h1, h2]
  · intro h1 h2 h3
    simp [dispatch, h1, h2, h3]
  · intro h1 h2 h3 h4
    simp [dispatch, h1, h2, h3, h4]
  · intro h1 h2 h3 h4 h5
    have hd : dispatch m = SourceKind.noSource := by
      simp [dispatch, h1, h2, h3, h4]
    refine ⟨hd, ?_, ?_⟩ <;>
      cases patch <;> simp [provide, hd, h5, applyPatches, acquireKind]

/-- Witness for C3_dispatch_priority: a git-only descriptor dispatches to
the Git provider, and a keyless descriptor provisions an empty working
directory with no error. -/
theorem C3_dispatch_priority_witness :
    dispatch mGitOnly = SourceKind.git ∧
    (provide envOkTree "W" "r" emptyMeta true none).err = none ∧
    (provide envOkTree "W" "r" emptyMeta true none).work = some [] :=
  ⟨(C3_dispatch_priority envOkTree "W" "r" mGitOnly true none).2.1 rfl rfl,
   ((C3_dispatch_priority envOkTree "W" "r" emptyMeta true none).2.2.2.2
      rfl rfl rfl rfl rfl).2.1,
   ((C3_dispatch_priority envOkTree "W" "r" emptyMeta true none).2.2.2.2
      rfl rfl rfl rfl rfl).2.2⟩

/-- C4, code bug: provide's body has no return statement, so every call
returns None rather than the working-directory path the specification
promises for the Done state (the module's own main block prints
provide's result, which can only ever print None; the VCS helpers return
WORK_DIR internally but provide discards those values). -/
theorem C4_provide_returns_none (env : ProvideEnv) (work_dir recipe_dir : String)
    (m : Meta) (patch : Bool) (init : Option (List Entry)) :
    (provide env work_dir recipe_dir m patch init).ret = none := by
  cases ha : acquireKind env (dispatch m) with
  | error msg => simp [provide, ha]
  | ok es =>
    cases patch with
    | false => simp [provide, ha]
    | true =>
      rcases hap : applyPatches env.patchEnv (get_dir work_dir es)
          recipe_dir m.patches with ⟨cmds, perr⟩
      simp [provide, ha, hap]

end CondaBuild
